import Mathlib

set_option maxHeartbeats 1000000

/-!
Verification development for `extract.py` of the `wabbajack_modlist_extractor`
repository.  The script reads a Wabbajack modlist ZIP, locates the `modlist`
JSON manifest, validates each element of its `Archives` array into a `ModInfo`
record, and writes one URL block per accepted record to an output file.

The embedding below models the JSON data reachable from `json.load` as the
inductive type `JVal`, and models the Python-level behaviour of the script
(truthiness, `dict.get`, the `in` operator, `len`, iteration, and the
exception classes the script raises and catches) as explicit `Except` values.
Stdout side effects (the `info`/`error` colour printing and the `print(state)`
debug line) are modelled only insofar as the claims need them: the messages
passed to `error(..., do_exit=False)` inside the validation loop are collected
as the `warnings` list of the run result.
-/

/-- JSON values as produced by Python's `json.load`: `None`, booleans,
numbers (the manifests in scope carry integers; floats are out of scope),
strings, lists and string-keyed dicts. -/
inductive JVal where
  | null
  | bool (b : Bool)
  | num (n : Int)
  | str (s : String)
  | arr (elems : List JVal)
  | obj (fields : List (String × JVal))

/-- The Python exception classes that can escape the expressions the script
evaluates: `AttributeError` (raised explicitly by `ModInfo.__init__` and by
attribute lookup on objects lacking `.get`), `ValueError` (raised explicitly
for an unsupported download type), `TypeError` (raised by `in`/`len`/iteration
on non-iterable values) and `OSError` (raised by `open` on a directory). -/
inductive PyErr where
  | attributeError (msg : String)
  | valueError (msg : String)
  | typeError (msg : String)
  | osError (msg : String)

/-- First-match association-list lookup, the shape of a Python dict coming
from `json.load` (keys are unique there, so first match is the match). -/
def lookupField : List (String × JVal) → String → Option JVal
  | [], _ => none
  | kv :: rest, key => if kv.1 == key then some kv.2 else lookupField rest key

/-- Python type name of a `JVal`, used in runtime error messages. -/
def pyTypeName : JVal → String
  | .null => "NoneType"
  | .bool _ => "bool"
  | .num _ => "int"
  | .str _ => "str"
  | .arr _ => "list"
  | .obj _ => "dict"

/-- Python truthiness (`bool(x)`): `None`, `False`, `0`, `""`, `[]` and
`{}` are falsy, everything else is truthy. -/
def JVal.truthy : JVal → Bool
  | .null => false
  | .bool b => b
  | .num n => n != 0
  | .str s => !s.data.isEmpty
  | .arr xs => !xs.isEmpty
  | .obj fs => !fs.isEmpty

/-- Python `x is None` for a JSON value. -/
def JVal.isNull : JVal → Bool
  | .null => true
  | _ => false

/-- Whether a `JVal` is a JSON array (a sequence in the manifest's data
model). -/
def jIsArr : JVal → Bool
  | .arr _ => true
  | _ => false

/-- Python `x.get(key, None)`: defined for dicts, raising `AttributeError`
for every other value (as `state.get(...)` does in `ModInfo.__init__` when
the entry or its `State` is not an object). -/
def dictGet (v : JVal) (key : String) : Except PyErr JVal :=
  match v with
  | .obj fs => .ok ((lookupField fs key).getD .null)
  | other =>
      .error (.attributeError
        ("\x27" ++ pyTypeName other ++ "\x27 object has no attribute \x27get\x27"))

/-- Whether the first character list is a prefix of the second, by character
equality. -/
def prefixOfChars : List Char → List Char → Bool
  | [], _ => true
  | _ :: _, [] => false
  | a :: as, b :: bs => a == b && prefixOfChars as bs

/-- Whether the first character list occurs contiguously inside the second. -/
def subSeqAt : List Char → List Char → Bool
  | needle, [] => needle.isEmpty
  | needle, c :: rest => prefixOfChars needle (c :: rest) || subSeqAt needle rest

/-- Python substring test `needle in hay` for strings. -/
def strContains (hay needle : String) : Bool := subSeqAt needle.data hay.data

/-- Python `needle in container` for a string needle: substring test on a
string, element membership on a list (a string compares equal only to an
equal string), key membership on a dict, and `TypeError` on the non-iterable
values `None`, booleans and numbers. -/
def pyIn (needle : String) (container : JVal) : Except PyErr Bool :=
  match container with
  | .str s => .ok (strContains s needle)
  | .arr xs =>
      .ok (xs.any (fun v => match v with | .str s => s == needle | _ => false))
  | .obj fs => .ok (fs.any (fun kv => kv.1 == needle))
  | other =>
      .error (.typeError
        ("argument of type \x27" ++ pyTypeName other ++ "\x27 is not iterable"))

/-- Python `len(x)`: defined for strings, lists and dicts, `TypeError`
otherwise. -/
def pyLen : JVal → Except PyErr Nat
  | .str s => .ok s.length
  | .arr xs => .ok xs.length
  | .obj fs => .ok fs.length
  | other =>
      .error (.typeError
        ("object of type \x27" ++ pyTypeName other ++ "\x27 has no len()"))

/-- Python iteration over a JSON value: a list yields its elements, a string
yields its characters as one-character strings, a dict yields its keys, and
`None`, booleans and numbers raise `TypeError`. -/
def pyIter : JVal → Except PyErr (List JVal)
  | .arr xs => .ok xs
  | .str s => .ok (s.data.map (fun c => .str (String.singleton c)))
  | .obj fs => .ok (fs.map (fun kv => .str kv.1))
  | other =>
      .error (.typeError
        ("\x27" ++ pyTypeName other ++ "\x27 object is not iterable"))

/-- Escape one character the way Python's `repr` escapes it inside a
single-quoted string literal (backslash, quote and the common control
characters; other characters are kept verbatim). -/
def escapeChar (c : Char) : String :=
  if c == '\\' then "\\\\"
  else if c == '\x27' then "\\\x27"
  else if c == '\n' then "\\n"
  else if c == '\t' then "\\t"
  else if c == '\r' then "\\r"
  else String.singleton c

/-- Escape a whole string for Python `repr`. -/
def escapePy (s : String) : String := String.join (s.data.map escapeChar)

mutual

/-- Python `repr` of a JSON value (always single-quoting strings; Python's
quote-style heuristic is immaterial here because both sides of every
comparison below render through the same function). -/
def pyRepr : JVal → String
  | .null => "None"
  | .bool true => "True"
  | .bool false => "False"
  | .num n => toString n
  | .str s => "\x27" ++ escapePy s ++ "\x27"
  | .arr xs => "[" ++ String.intercalate ", " (pyReprList xs) ++ "]"
  | .obj fs => "\x7b" ++ String.intercalate ", " (pyReprFields fs) ++ "\x7d"

/-- `repr` of each element of a list. -/
def pyReprList : List JVal → List String
  | [] => []
  | x :: xs => pyRepr x :: pyReprList xs

/-- `repr` of each `key: value` pair of a dict. -/
def pyReprFields : List (String × JVal) → List String
  | [] => []
  | f :: fs => ("\x27" ++ escapePy f.1 ++ "\x27: " ++ pyRepr f.2) :: pyReprFields fs

end

/-- Python `str(x)` as used by f-string interpolation: a string renders as
itself, everything else as its `repr`. -/
def pyStr (v : JVal) : String :=
  match v with
  | .str s => s
  | other => pyRepr other

/-- The validated record built by `ModInfo.__init__` (lines 48-68 of
`extract.py`): the five `State` fields, kept as the JSON values found there. -/
structure ModInfo where
  name : JVal
  author : JVal
  file_id : JVal
  mod_id : JVal
  game : JVal

/-- `ModInfo.__init__` (lines 48-68): look up `State` (AttributeError when the
entry is not a dict), reject a falsy `State`; look up `$type` likewise and
reject a falsy value; require `"NexusDownloader" in $type` (ValueError when
the containment test returns false, TypeError from `in` itself when `$type`
is truthy but not iterable); fetch the five required fields and reject the
record with AttributeError when any is `None`. -/
def mkModInfo (data : JVal) : Except PyErr ModInfo :=
  match dictGet data "State" with
  | .error e => .error e
  | .ok state =>
    if !state.truthy then
      .error (.attributeError "The entry does not contain a State object")
    else
      match dictGet state "$type" with
      | .error e => .error e
      | .ok etype =>
        if !etype.truthy then
          .error (.attributeError "The entry does not contain a type")
        else
          match pyIn "NexusDownloader" etype with
          | .error e => .error e
          | .ok b =>
            if !b then
              .error (.valueError ("Unsupported download type " ++ pyStr etype))
            else
              match dictGet state "Name" with
              | .error e => .error e
              | .ok name =>
                match dictGet state "Author" with
                | .error e => .error e
                | .ok author =>
                  match dictGet state "FileID" with
                  | .error e => .error e
                  | .ok file_id =>
                    match dictGet state "ModID" with
                    | .error e => .error e
                    | .ok mod_id =>
                      match dictGet state "GameName" with
                      | .error e => .error e
                      | .ok game =>
                        if name.isNull || author.isNull || file_id.isNull
                            || mod_id.isNull || game.isNull then
                          .error (.attributeError
                            "The entry is missing a required attribute")
                        else
                          .ok ⟨name, author, file_id, mod_id, game⟩

/-- The `url` property (lines 70-72): the file-specific Nexus URL. -/
def ModInfo.url (m : ModInfo) : String :=
  "https://www.nexusmods.com/" ++ pyStr m.game ++ "/mods/" ++ pyStr m.mod_id
    ++ "?tab=files&file_id=" ++ pyStr m.file_id

/-- The `mod_url` property (lines 74-76): the mod-level Nexus URL. -/
def ModInfo.mod_url (m : ModInfo) : String :=
  "https://www.nexusmods.com/" ++ pyStr m.game ++ "/mods/" ++ pyStr m.mod_id

/-- One output block as written by the final loop (lines 170-175): a heading
with name and author, then the mod-level URL when `--mods` was given and the
file-specific URL otherwise, then a blank separator line. -/
def formatBlock (useMods : Bool) (m : ModInfo) : String :=
  "## \x27" ++ pyStr m.name ++ "\x27 by " ++ pyStr m.author ++ "\n"
    ++ (if useMods then m.mod_url else m.url) ++ "\n\n"

/-- The full content written to the output file: the blocks of the accepted
records concatenated in list order. -/
def outputContent (useMods : Bool) (ms : List ModInfo) : String :=
  String.join (ms.map (formatBlock useMods))

/-- The message passed to `error(..., do_exit=False)` for a rejected entry
(lines 165 and 167): f-string of the index and the exception text. -/
def entryWarning (i : Nat) (msg : String) : String :=
  s!"Error for entry {i}: {msg}"

/-- The validation loop over `enumerate(archives)` (lines 159-168), started
at index `i`.  Returns the warning messages printed (in print order) and
either the accepted records in order or the first exception the loop does not
catch: `ValueError` and `AttributeError` are caught and skip the entry (the
`continue` after the `AttributeError` handler is redundant, the loop body
ends there anyway); any other exception propagates and aborts the run. -/
def runLoopAux (i : Nat) : List JVal → List String × Except PyErr (List ModInfo)
  | [] => ([], .ok [])
  | e :: rest =>
    match mkModInfo e with
    | .ok m =>
        let r := runLoopAux (i + 1) rest
        (r.1, r.2.map (fun ms => m :: ms))
    | .error (.attributeError msg) =>
        let r := runLoopAux (i + 1) rest
        (entryWarning i msg :: r.1, r.2)
    | .error (.valueError msg) =>
        let r := runLoopAux (i + 1) rest
        (entryWarning i msg :: r.1, r.2)
    | .error err => ([], .error err)

/-- How a run ends: normally (exit status 0), through `error(...)` with its
diagnostic (exit status 1), or through an uncaught Python exception (also a
nonzero exit, with a traceback). -/
inductive RunOutcome where
  | success
  | fatalError (msg : String)
  | uncaught (err : PyErr)

/-- The process exit status determined by an outcome. -/
def exitCode : RunOutcome → Nat
  | .success => 0
  | .fatalError _ => 1
  | .uncaught _ => 1

/-- Observable result of a run: how it ended, whether the debug dump file
`"temp"` was written (line 148), whether execution reached the per-entry
validation loop, the non-fatal warnings printed, and the content written to
the designated output file (`none` when that file was never created). -/
structure RunResult where
  outcome : RunOutcome
  tempWritten : Bool
  validated : Bool
  warnings : List String
  outputWritten : Option String

/-- Lines 143-175 of `extract.py`, from the `if not data` check: reject a
falsy parse result; dump the parsed data to the file `"temp"`; fetch
`Archives` with `.get` (an uncaught `AttributeError` when the manifest is not
a dict); `error` when it is `None` (absent key or JSON null) and when it is
falsy; take its `len` (an uncaught `TypeError` for truthy non-iterables) and
iterate it through the validation loop; finally open the output file and
write one block per accepted record. -/
def processManifest (data : JVal) (useMods : Bool) : RunResult :=
  if !data.truthy then
    ⟨.fatalError "Failed to load data from modlist", false, false, [], none⟩
  else
    match dictGet data "Archives" with
    | .error e => ⟨.uncaught e, true, false, [], none⟩
    | .ok archives =>
      if archives.isNull then
        ⟨.fatalError "Failed to get archives data from modlist", true, false, [], none⟩
      else if !archives.truthy then
        ⟨.fatalError "No archives defined in modlist", true, false, [], none⟩
      else
        match pyLen archives with
        | .error e => ⟨.uncaught e, true, false, [], none⟩
        | .ok _ =>
          match pyIter archives with
          | .error e => ⟨.uncaught e, true, false, [], none⟩
          | .ok entries =>
            let r := runLoopAux 0 entries
            match r.2 with
            | .error e => ⟨.uncaught e, true, true, r.1, none⟩
            | .ok ms =>
                ⟨.success, true, true, r.1, some (outputContent useMods ms)⟩

/-- The environment a run observes: the filesystem facts the script checks,
the `file(1)` subprocess results, the ZIP entry names, and the JSON parse
result of the extracted manifest (`Except` carries the `JSONDecodeError`
text). -/
structure Env where
  inputIsFile : Bool
  outputIsFile : Bool
  outputIsDir : Bool
  fileCmdExists : Bool
  fileOutInput : String
  fileRcInput : Int
  zipNames : List String
  extractedIsFile : Bool
  fileOutModlist : String
  fileRcModlist : Int
  parsed : Except String JVal
  useMods : Bool

/-- A run that ended before the manifest was parsed: no temp dump, no
validation, no warnings, no output file. -/
def noResult (o : RunOutcome) : RunResult := ⟨o, false, false, [], none⟩

/-- Model of `open(parsed.OUTPUT, "w")` when the output path is a directory:
the final write raises `IsADirectoryError` (an `OSError`), so a result that
would have written output becomes an uncaught failure with no output file. -/
def applyDirWrite (outputIsDir : Bool) (r : RunResult) : RunResult :=
  if outputIsDir then
    match r.outputWritten with
    | some _ => ⟨.uncaught (.osError "Is a directory"), r.tempWritten, r.validated, r.warnings, none⟩
    | none => r
  else r

/-- The `__main__` block from line 92 on: the precondition checks in source
order (input exists, output does not, `file` available, `file` succeeded and
reported ZIP data), the exact-name scan of the ZIP entry list for `modlist`
(zero matches and two or more matches are fatal), the extracted-file and
text-type checks, the JSON parse, and then `processManifest`. -/
def runExtractor (env : Env) : RunResult :=
  if !env.inputIsFile then
    noResult (.fatalError "The input file does not exist")
  else if env.outputIsFile then
    noResult (.fatalError "The output file does already exist")
  else if !env.fileCmdExists then
    noResult (.fatalError "The file command is not available")
  else if env.fileRcInput != 0 then
    noResult (.fatalError "Executing the file command failed")
  else if !(strContains env.fileOutInput "Zip archive data") then
    noResult (.fatalError "The input file does not look like a ZIP file")
  else
    let hits := env.zipNames.filter (fun n => n == "modlist")
    if hits.isEmpty then
      noResult (.fatalError "The input file does not contain a modlist file")
    else if hits.length > 1 then
      noResult (.fatalError "Got more than one modlist file")
    else if !env.extractedIsFile then
      noResult (.fatalError "The extracted modlist file does not exist anymore")
    else if env.fileRcModlist != 0 then
      noResult (.fatalError "Executing the file command failed")
    else if !(strContains env.fileOutModlist "ASCII text") then
      noResult (.fatalError "The modlist file does not look like a text file")
    else
      match env.parsed with
      | .error em => noResult (.fatalError ("Failed to parse modlists: " ++ em))
      | .ok data => applyDirWrite env.outputIsDir (processManifest data env.useMods)

/-!
Claim-side definitions.  These follow the words of the specification, to be
compared with the source-derived definitions above.
-/

/-- The specification's required-field condition on a `State` object: each of
the five fields is present under its key and its value is not JSON null. -/
def requiredPresent (sfs : List (String × JVal)) : Bool :=
  ["Name", "Author", "FileID", "ModID", "GameName"].all (fun k =>
    match lookupField sfs k with
    | some v => !v.isNull
    | none => false)

/-- The acceptance condition as claim C1 states it: the entry has a truthy
`State` object, the `State`'s `$type` is truthy and the Python containment
test for the substring `"NexusDownloader"` succeeds, and the five required
fields are present with non-null values. -/
def claimAccepts (data : JVal) : Bool :=
  match data with
  | .obj fs =>
    match lookupField fs "State" with
    | some state =>
      state.truthy &&
        (match state with
         | .obj sfs =>
           (match lookupField sfs "$type" with
            | some t =>
              t.truthy &&
                (match pyIn "NexusDownloader" t with
                 | .ok b => b
                 | .error _ => false)
            | none => false) &&
             requiredPresent sfs
         | _ => false)
    | none => false
  | _ => false

/-- The carve-out the code forces on the per-entry-skip claims: the entry has
a `State` object whose `$type` is truthy but not iterable (a nonzero number
or `true`), so the containment test itself raises `TypeError`. -/
def hasNonIterableType (data : JVal) : Bool :=
  match data with
  | .obj fs =>
    match lookupField fs "State" with
    | some (.obj sfs) =>
      match lookupField sfs "$type" with
      | some t =>
        t.truthy && (match t with | .num _ => true | .bool _ => true | _ => false)
      | none => false
    | _ => false
  | _ => false

/-- The file-specific URL exactly as the specification writes it:
`https://www.nexusmods.com/{game}/mods/{mod_id}?tab=files&file_id={file_id}`. -/
def specFileUrl (m : ModInfo) : String :=
  "https://www.nexusmods.com/" ++ pyStr m.game ++ "/mods/" ++ pyStr m.mod_id
    ++ "?tab=files&file_id=" ++ pyStr m.file_id

/-- The mod-level URL exactly as the specification writes it:
`https://www.nexusmods.com/{game}/mods/{mod_id}`. -/
def specModUrl (m : ModInfo) : String :=
  "https://www.nexusmods.com/" ++ pyStr m.game ++ "/mods/" ++ pyStr m.mod_id

/-- The accepted record of a validation result, `none` for any rejection. -/
def resOpt : Except PyErr ModInfo → Option ModInfo
  | .ok m => some m
  | .error _ => none

/-- The records the loop accepts, in entry order. -/
def acceptedRecords (entries : List JVal) : List ModInfo :=
  entries.filterMap (fun e => resOpt (mkModInfo e))

/-- A validation result the loop catches and turns into a skip. -/
def isCaughtFailure : Except PyErr ModInfo → Bool
  | .error (.attributeError _) => true
  | .error (.valueError _) => true
  | _ => false

/-- A validation result whose exception the loop does not catch. -/
def isUncaught : Except PyErr ModInfo → Bool
  | .error (.typeError _) => true
  | .error (.osError _) => true
  | _ => false

/-- Whether a validation result is an acceptance. -/
def isOkRes : Except PyErr ModInfo → Bool
  | .ok _ => true
  | .error _ => false

/-- Whether a validation result is specifically an uncaught `TypeError`. -/
def isTypeErrRes : Except PyErr ModInfo → Bool
  | .error (.typeError _) => true
  | _ => false

/-!
Concrete inputs used by witnesses and counterexamples.
-/

/-- A well-formed Nexus archive entry, as in the specification's example. -/
def goodEntry : JVal :=
  .obj [("State", .obj
    [("$type", .str "NexusDownloader, Wabbajack.Lib"),
     ("Name", .str "Foo"),
     ("Author", .str "Bar"),
     ("FileID", .num 1),
     ("ModID", .num 2),
     ("GameName", .str "skyrimspecialedition")])]

/-- The record `ModInfo.__init__` builds from `goodEntry`. -/
def goodRecord : ModInfo :=
  ⟨.str "Foo", .str "Bar", .num 1, .num 2, .str "skyrimspecialedition"⟩

/-- A `State` field list with the Nexus type tag and all five required
fields present but falsy (empty strings and zeros). -/
def falsyState : List (String × JVal) :=
  [("$type", .str "NexusDownloader, Wabbajack.Lib"),
   ("Name", .str ""),
   ("Author", .str ""),
   ("FileID", .num 0),
   ("ModID", .num 0),
   ("GameName", .str "")]

/-- An entry whose `State` is `falsyState`. -/
def falsyFieldsEntry : JVal := .obj [("State", .obj falsyState)]

/-- An entry with an integer `$type`: the containment test raises an uncaught
`TypeError`. -/
def numTypeEntry : JVal := .obj [("State", .obj [("$type", .num 1)])]

/-- An entry with `$type` equal to `true`: same uncaught `TypeError`. -/
def boolTypeEntry : JVal := .obj [("State", .obj [("$type", .bool true)])]

/-- Another integer-`$type` entry, used for the empty-output claim. -/
def numTypeEntry7 : JVal := .obj [("State", .obj [("$type", .num 7)])]

/-- An entry with no `State` key: rejected with a caught `AttributeError`. -/
def noStateEntry : JVal := .obj [("X", .num 1)]

/-- A manifest whose `Archives` value is a non-empty JSON object rather than
an array. -/
def objArchivesManifest : JVal := .obj [("Archives", .obj [("x", .num 1)])]

/-- An environment for a fully successful run on a one-entry manifest. -/
def goodEnv : Env :=
  ⟨true, false, false, true, "input.wabbajack: Zip archive data, at least v2.0 to extract",
   0, ["modlist"], true, "modlist: ASCII text, with very long lines", 0,
   .ok (.obj [("Archives", .arr [goodEntry])]), false⟩

/-- An environment whose ZIP holds only case-variant names of `modlist`. -/
def caseEnv : Env :=
  ⟨true, false, false, true, "input.wabbajack: Zip archive data, at least v2.0 to extract",
   0, ["Modlist", "MODLIST"], true, "modlist: ASCII text", 0,
   .ok (.obj [("Archives", .arr [goodEntry])]), false⟩

/-- An environment whose output path is already a regular file. -/
def outExistsEnv : Env :=
  ⟨true, true, false, true, "input.wabbajack: Zip archive data", 0,
   ["modlist"], true, "modlist: ASCII text", 0,
   .ok (.obj [("Archives", .arr [goodEntry])]), false⟩

/-!
Helper lemmas.
-/

/-- A successful lookup needs a non-empty field list. -/
lemma lookupField_some_ne_nil {fs : List (String × JVal)} {k : String} {v : JVal}
    (h : lookupField fs k = some v) : fs ≠ [] := by
  intro he
  subst he
  simp [lookupField] at h

/-- An object with a resolvable key is truthy. -/
lemma truthy_obj_of_lookup {fs : List (String × JVal)} {k : String} {v : JVal}
    (h : lookupField fs k = some v) : (JVal.obj fs).truthy = true := by
  cases fs with
  | nil => simp [lookupField] at h
  | cons a l => simp [JVal.truthy]

/-- The required-field test is the negation of the null-field disjunction the
constructor checks. -/
lemma req_not (sfs : List (String × JVal)) :
    requiredPresent sfs =
      !(((lookupField sfs "Name").getD JVal.null).isNull
        || ((lookupField sfs "Author").getD JVal.null).isNull
        || ((lookupField sfs "FileID").getD JVal.null).isNull
        || ((lookupField sfs "ModID").getD JVal.null).isNull
        || ((lookupField sfs "GameName").getD JVal.null).isNull) := by
  cases o1 : lookupField sfs "Name" <;>
    cases o2 : lookupField sfs "Author" <;>
      cases o3 : lookupField sfs "FileID" <;>
        cases o4 : lookupField sfs "ModID" <;>
          cases o5 : lookupField sfs "GameName" <;>
            simp [requiredPresent, o1, o2, o3, o4, o5, JVal.isNull, Bool.not_or,
              Bool.and_assoc]

/-- A caught validation failure is not an uncaught one. -/
lemma caught_not_uncaught {r : Except PyErr ModInfo}
    (h : isCaughtFailure r = true) : isUncaught r = false := by
  cases r with
  | ok m => simp [isUncaught]
  | error e => cases e <;> simp_all [isCaughtFailure, isUncaught]

/-- A caught validation failure contributes no record. -/
lemma resOpt_none_of_caught {r : Except PyErr ModInfo}
    (h : isCaughtFailure r = true) : resOpt r = none := by
  cases r with
  | ok m => simp [isCaughtFailure] at h
  | error e => simp [resOpt]

/-- Classification of `ModInfo.__init__` on an arbitrary entry: it accepts
exactly the entries satisfying the claim-side acceptance condition, raises an
uncaught `TypeError` exactly on a truthy non-iterable `$type`, and otherwise
fails with a caught `AttributeError`/`ValueError`. -/
lemma mk_classified (data : JVal) :
    isOkRes (mkModInfo data) = claimAccepts data
    ∧ isTypeErrRes (mkModInfo data) = hasNonIterableType data
    ∧ isCaughtFailure (mkModInfo data) = (!claimAccepts data && !hasNonIterableType data) := by
  cases data with
  | null => exact ⟨rfl, rfl, rfl⟩
  | bool b => cases b <;> exact ⟨rfl, rfl, rfl⟩
  | num n => exact ⟨rfl, rfl, rfl⟩
  | str s => exact ⟨rfl, rfl, rfl⟩
  | arr xs => exact ⟨rfl, rfl, rfl⟩
  | obj fs =>
    simp only [mkModInfo, claimAccepts, hasNonIterableType, dictGet]
    cases hS : lookupField fs "State" with
    | none =>
      simp [isOkRes, isCaughtFailure, isTypeErrRes, JVal.truthy]
    | some st =>
      simp only [Option.getD_some]
      cases st with
      | null =>
        simp [isOkRes, isCaughtFailure, isTypeErrRes, JVal.truthy]
      | bool b =>
        cases b <;>
          simp [isOkRes, isCaughtFailure, isTypeErrRes, JVal.truthy, dictGet]
      | num n =>
        cases hn : (n != 0) <;>
          simp [isOkRes, isCaughtFailure, isTypeErrRes, JVal.truthy, hn, dictGet]
      | str s =>
        cases hs : s.data.isEmpty <;>
          simp [isOkRes, isCaughtFailure, isTypeErrRes, JVal.truthy, hs, dictGet]
      | arr xs =>
        cases hxs : xs.isEmpty <;>
          simp [isOkRes, isCaughtFailure, isTypeErrRes, JVal.truthy, hxs, dictGet]
      | obj sfs =>
        cases hempty : sfs.isEmpty with
        | true =>
          have hnil : sfs = [] := List.isEmpty_iff.mp hempty
          subst hnil
          simp [isOkRes, isCaughtFailure, isTypeErrRes, JVal.truthy, lookupField]
        | false =>
          simp only [JVal.truthy, hempty, Bool.not_false, if_true, Bool.not_true,
            Bool.false_eq_true, if_false, dictGet]
          cases hT : lookupField sfs "$type" with
          | none =>
            simp [isOkRes, isCaughtFailure, isTypeErrRes, JVal.truthy]
          | some t =>
            simp only [Option.getD_some]
            cases t with
            | null =>
              simp [isOkRes, isCaughtFailure, isTypeErrRes, JVal.truthy]
            | bool b =>
              cases b <;>
                simp [isOkRes, isCaughtFailure, isTypeErrRes, JVal.truthy, pyIn]
            | num n =>
              cases hn : (n != 0) <;>
                simp [isOkRes, isCaughtFailure, isTypeErrRes, JVal.truthy, hn, pyIn]
            | str s2 =>
              cases hs2 : s2.data.isEmpty with
              | true =>
                simp [isOkRes, isCaughtFailure, isTypeErrRes, JVal.truthy, hs2]
              | false =>
                simp only [JVal.truthy, hs2, Bool.not_false, if_true, Bool.not_true,
                  Bool.false_eq_true, if_false, pyIn]
                cases hb : strContains s2 "NexusDownloader" with
                | false =>
                  simp [isOkRes, isCaughtFailure, isTypeErrRes]
                | true =>
                  rw [req_not]
                  simp only [Bool.not_true, Bool.false_eq_true, if_false, Bool.true_and,
                    Bool.and_true]
                  generalize ((lookupField sfs "Name").getD JVal.null).isNull = b1
                  generalize ((lookupField sfs "Author").getD JVal.null).isNull = b2
                  generalize ((lookupField sfs "FileID").getD JVal.null).isNull = b3
                  generalize ((lookupField sfs "ModID").getD JVal.null).isNull = b4
                  generalize ((lookupField sfs "GameName").getD JVal.null).isNull = b5
                  cases b1 <;> cases b2 <;> cases b3 <;> cases b4 <;> cases b5 <;>
                    simp [isOkRes, isCaughtFailure, isTypeErrRes]
            | arr xs2 =>
              cases hxs2 : xs2.isEmpty with
              | true =>
                simp [isOkRes, isCaughtFailure, isTypeErrRes, JVal.truthy, hxs2]
              | false =>
                simp only [JVal.truthy, hxs2, Bool.not_false, if_true, Bool.not_true,
                  Bool.false_eq_true, if_false, pyIn]
                cases hb : xs2.any (fun v => match v with | .str s => s == "NexusDownloader" | _ => false) with
                | false =>
                  simp [isOkRes, isCaughtFailure, isTypeErrRes]
                | true =>
                  rw [req_not]
                  simp only [Bool.not_true, Bool.false_eq_true, if_false, Bool.true_and,
                    Bool.and_true]
                  generalize ((lookupField sfs "Name").getD JVal.null).isNull = b1
                  generalize ((lookupField sfs "Author").getD JVal.null).isNull = b2
                  generalize ((lookupField sfs "FileID").getD JVal.null).isNull = b3
                  generalize ((lookupField sfs "ModID").getD JVal.null).isNull = b4
                  generalize ((lookupField sfs "GameName").getD JVal.null).isNull = b5
                  cases b1 <;> cases b2 <;> cases b3 <;> cases b4 <;> cases b5 <;>
                    simp [isOkRes, isCaughtFailure, isTypeErrRes]
            | obj ofs =>
              cases hofs : ofs.isEmpty with
              | true =>
                simp [isOkRes, isCaughtFailure, isTypeErrRes, JVal.truthy, hofs]
              | false =>
                simp only [JVal.truthy, hofs, Bool.not_false, if_true, Bool.not_true,
                  Bool.false_eq_true, if_false, pyIn]
                cases hb : ofs.any (fun kv => kv.1 == "NexusDownloader") with
                | false =>
                  simp [isOkRes, isCaughtFailure, isTypeErrRes]
                | true =>
                  rw [req_not]
                  simp only [Bool.not_true, Bool.false_eq_true, if_false, Bool.true_and,
                    Bool.and_true]
                  generalize ((lookupField sfs "Name").getD JVal.null).isNull = b1
                  generalize ((lookupField sfs "Author").getD JVal.null).isNull = b2
                  generalize ((lookupField sfs "FileID").getD JVal.null).isNull = b3
                  generalize ((lookupField sfs "ModID").getD JVal.null).isNull = b4
                  generalize ((lookupField sfs "GameName").getD JVal.null).isNull = b5
                  cases b1 <;> cases b2 <;> cases b3 <;> cases b4 <;> cases b5 <;>
                    simp [isOkRes, isCaughtFailure, isTypeErrRes]

/-- A caught failure at the head of the loop adds one warning and leaves the
rest of the loop unchanged. -/
lemma runLoopAux_caught_cons {e : JVal} (h : isCaughtFailure (mkModInfo e) = true)
    (i : Nat) (rest : List JVal) :
    ∃ msg, runLoopAux i (e :: rest) =
      (entryWarning i msg :: (runLoopAux (i + 1) rest).1, (runLoopAux (i + 1) rest).2) := by
  cases hm : mkModInfo e with
  | ok m => rw [hm] at h; simp [isCaughtFailure] at h
  | error err =>
    cases err with
    | attributeError msg => exact ⟨msg, by simp [runLoopAux, hm]⟩
    | valueError msg => exact ⟨msg, by simp [runLoopAux, hm]⟩
    | typeError msg => rw [hm] at h; simp [isCaughtFailure] at h
    | osError msg => rw [hm] at h; simp [isCaughtFailure] at h

/-- When the loop completes, the records it returns are exactly the accepted
records of its input, in order. -/
lemma runLoopAux_ok_records :
    ∀ (l : List JVal) (i : Nat) (ms : List ModInfo),
      (runLoopAux i l).2 = .ok ms → ms = acceptedRecords l := by
  intro l
  induction l with
  | nil =>
    intro i ms h
    simp [runLoopAux] at h
    simp [acceptedRecords, ← h]
  | cons e rest ih =>
    intro i ms h
    cases hm : mkModInfo e with
    | ok m =>
      simp only [runLoopAux, hm] at h
      cases hr : (runLoopAux (i + 1) rest).2 with
      | ok ms2 =>
        rw [hr] at h
        simp only [Except.map, Except.ok.injEq] at h
        subst h
        simp [acceptedRecords, List.filterMap_cons, resOpt, hm, ih (i + 1) ms2 hr]
      | error err =>
        rw [hr] at h
        simp [Except.map] at h
    | error err =>
      cases err with
      | attributeError msg =>
        simp only [runLoopAux, hm] at h
        rw [ih (i + 1) ms h]
        simp [acceptedRecords, List.filterMap_cons, resOpt, hm]
      | valueError msg =>
        simp only [runLoopAux, hm] at h
        rw [ih (i + 1) ms h]
        simp [acceptedRecords, List.filterMap_cons, resOpt, hm]
      | typeError msg =>
        simp [runLoopAux, hm] at h
      | osError msg =>
        simp [runLoopAux, hm] at h

/-- When no entry raises an uncaught exception, the loop completes and
returns exactly the accepted records. -/
lemma runLoopAux_ok_of_no_uncaught :
    ∀ (l : List JVal) (i : Nat),
      (∀ e ∈ l, isUncaught (mkModInfo e) = false) →
      (runLoopAux i l).2 = .ok (acceptedRecords l) := by
  intro l
  induction l with
  | nil =>
    intro i _
    simp [runLoopAux, acceptedRecords]
  | cons e rest ih =>
    intro i hall
    have hrest : ∀ x ∈ rest, isUncaught (mkModInfo x) = false := by
      intro x hx
      exact hall x (List.mem_cons_of_mem e hx)
    have he := hall e (List.mem_cons_self e rest)
    cases hm : mkModInfo e with
    | ok m =>
      simp [runLoopAux, hm, ih (i + 1) hrest, acceptedRecords,
        List.filterMap_cons, resOpt, Except.map]
    | error err =>
      cases err with
      | attributeError msg =>
        simp [runLoopAux, hm, ih (i + 1) hrest, acceptedRecords,
          List.filterMap_cons, resOpt]
      | valueError msg =>
        simp [runLoopAux, hm, ih (i + 1) hrest, acceptedRecords,
          List.filterMap_cons, resOpt]
      | typeError msg =>
        rw [hm] at he
        simp [isUncaught] at he
      | osError msg =>
        rw [hm] at he
        simp [isUncaught] at he

/-- When every entry fails with a caught error, no record is accepted. -/
lemma acceptedRecords_nil_of_all_caught :
    ∀ (l : List JVal), (∀ e ∈ l, isCaughtFailure (mkModInfo e) = true) →
      acceptedRecords l = [] := by
  intro l
  induction l with
  | nil => intro _; simp [acceptedRecords]
  | cons e rest ih =>
    intro hall
    have hrest : ∀ x ∈ rest, isCaughtFailure (mkModInfo x) = true := by
      intro x hx
      exact hall x (List.mem_cons_of_mem e hx)
    have he := hall e (List.mem_cons_self e rest)
    simp only [acceptedRecords, List.filterMap_cons, resOpt_none_of_caught he]
    simpa [acceptedRecords] using ih hrest

/-- A run whose manifest stage created no output file did not end in
success: its exit status is 1. -/
lemma processManifest_none_exit (d : JVal) (f : Bool) :
    (processManifest d f).outputWritten = none →
      exitCode (processManifest d f).outcome = 1 := by
  unfold processManifest
  split
  · intro _; rfl
  · split
    · intro _; rfl
    · split
      · intro _; rfl
      · split
        · intro _; rfl
        · split
          · intro _; rfl
          · split
            · intro _; rfl
            · dsimp only
              split
              · intro _; rfl
              · intro h; simp at h

/-- Evaluation of the manifest stage on an object manifest whose `Archives`
key holds a non-empty array: the loader checks pass and the run is decided by
the validation loop. -/
lemma processManifest_arr (fs : List (String × JVal)) (e0 : JVal) (es : List JVal)
    (flag : Bool) (hfs : lookupField fs "Archives" = some (.arr (e0 :: es))) :
    processManifest (.obj fs) flag =
      match (runLoopAux 0 (e0 :: es)).2 with
      | .error err => ⟨.uncaught err, true, true, (runLoopAux 0 (e0 :: es)).1, none⟩
      | .ok ms => ⟨.success, true, true, (runLoopAux 0 (e0 :: es)).1,
          some (outputContent flag ms)⟩ := by
  have htr := truthy_obj_of_lookup hfs
  simp only [processManifest, htr, Bool.not_true, Bool.false_eq_true, if_false,
    dictGet, hfs, Option.getD_some, pyLen, pyIter]
  simp [JVal.isNull, JVal.truthy]

/-!
Claim theorems.
-/

/-- C1 (amended): a ModRecord is constructed from an Archives element exactly
when the element has a truthy `State` object whose `$type` is truthy and
passes the Python containment test for `"NexusDownloader"`, with all five
required fields present and non-null.  An element failing these conditions is
rejected and excluded without aborting the run — one warning is printed and
the loop treats the remaining entries identically — except that an element
whose `State` has a truthy non-iterable `$type` (a number or boolean) aborts
the run with an uncaught `TypeError`. -/
theorem c1_modrecord_acceptance (data : JVal) (i : Nat) (rest : List JVal) :
    isOkRes (mkModInfo data) = claimAccepts data
    ∧ (claimAccepts data = false → hasNonIterableType data = false →
        (runLoopAux i (data :: rest)).2 = (runLoopAux (i + 1) rest).2
        ∧ (runLoopAux i (data :: rest)).1.length
            = (runLoopAux (i + 1) rest).1.length + 1)
    ∧ (hasNonIterableType data = true →
        ∃ msg, (runLoopAux i (data :: rest)).2 = .error (.typeError msg)) := by
  obtain ⟨h1, h2, h3⟩ := mk_classified data
  refine ⟨h1, ?_, ?_⟩
  · intro hca hni
    have hc : isCaughtFailure (mkModInfo data) = true := by
      rw [h3, hca, hni]
      rfl
    obtain ⟨msg, hmsg⟩ := runLoopAux_caught_cons hc i rest
    rw [hmsg]
    exact ⟨rfl, by simp⟩
  · intro hni
    have ht : isTypeErrRes (mkModInfo data) = true := by rw [h2, hni]
    cases hm : mkModInfo data with
    | ok m => rw [hm] at ht; simp [isTypeErrRes] at ht
    | error err =>
      cases err with
      | typeError msg => exact ⟨msg, by simp [runLoopAux, hm]⟩
      | attributeError msg => rw [hm] at ht; simp [isTypeErrRes] at ht
      | valueError msg => rw [hm] at ht; simp [isTypeErrRes] at ht
      | osError msg => rw [hm] at ht; simp [isTypeErrRes] at ht

/-- C1 witness: a no-`State` entry is skipped with one warning while the rest
of the loop is unchanged, and an integer-`$type` entry aborts the loop. -/
theorem c1_modrecord_acceptance_witness :
    ((runLoopAux 0 [noStateEntry, goodEntry]).2 = (runLoopAux 1 [goodEntry]).2
      ∧ (runLoopAux 0 [noStateEntry, goodEntry]).1.length
          = (runLoopAux 1 [goodEntry]).1.length + 1)
    ∧ (∃ msg, (runLoopAux 5 [numTypeEntry]).2 = .error (.typeError msg)) :=
  ⟨(c1_modrecord_acceptance noStateEntry 0 [goodEntry]).2.1 rfl rfl,
   (c1_modrecord_acceptance numTypeEntry 5 []).2.2 rfl⟩

/-- C1 counterexample: the integer-`$type` entry fails the claim's acceptance
conditions, yet instead of being skipped it aborts the run with an uncaught
`TypeError`, and the pipeline exits nonzero without writing output. -/
theorem c1_modrecord_acceptance_cex :
    claimAccepts numTypeEntry = false
    ∧ (runLoopAux 0 [numTypeEntry]).2 =
        .error (.typeError "argument of type \x27int\x27 is not iterable")
    ∧ exitCode (processManifest (.obj [("Archives", .arr [numTypeEntry])]) false).outcome = 1
    ∧ (processManifest (.obj [("Archives", .arr [numTypeEntry])]) false).outputWritten = none :=
  ⟨rfl, rfl, rfl, rfl⟩

/-- C2: the block written for every accepted record carries exactly the URL
the specification prescribes — the file-specific form when the mod-level flag
is false and the mod-level form when it is true. -/
theorem c2_url_format (flag : Bool) (ms : List ModInfo) :
    outputContent flag ms =
      String.join (ms.map (fun m =>
        "## \x27" ++ pyStr m.name ++ "\x27 by " ++ pyStr m.author ++ "\n"
          ++ (if flag then specModUrl m else specFileUrl m) ++ "\n\n")) := by
  have hfun : formatBlock flag = fun m =>
      "## \x27" ++ pyStr m.name ++ "\x27 by " ++ pyStr m.author ++ "\n"
        ++ (if flag then specModUrl m else specFileUrl m) ++ "\n\n" := by
    funext m
    cases flag <;> rfl
  unfold outputContent
  rw [hfun]

/-- C3 (amended): a validation failure the loop catches (missing `State`,
missing or falsy `$type`, unsupported type value, missing or null fields) is
reported as one non-fatal warning and excludes only that entry; when the
remaining entries raise nothing uncaught, the run still writes the output
file and exits 0.  (An entry with a truthy non-iterable `$type` instead
raises an uncaught `TypeError` and aborts the run.) -/
theorem c3_per_entry_failures (i : Nat) (e : JVal) (rest : List JVal) (msg : String)
    (flag : Bool) (fs : List (String × JVal))
    (hcaught : mkModInfo e = .error (.attributeError msg)
      ∨ mkModInfo e = .error (.valueError msg))
    (hrest : ∀ x ∈ rest, isUncaught (mkModInfo x) = false)
    (hfs : lookupField fs "Archives" = some (.arr (e :: rest))) :
    runLoopAux i (e :: rest) =
      (entryWarning i msg :: (runLoopAux (i + 1) rest).1, (runLoopAux (i + 1) rest).2)
    ∧ exitCode (processManifest (.obj fs) flag).outcome = 0
    ∧ (processManifest (.obj fs) flag).outputWritten.isSome = true := by
  have hloop : runLoopAux i (e :: rest) =
      (entryWarning i msg :: (runLoopAux (i + 1) rest).1, (runLoopAux (i + 1) rest).2) := by
    rcases hcaught with hm | hm <;> simp [runLoopAux, hm]
  have h0 : (runLoopAux 0 (e :: rest)).2 = (runLoopAux 1 rest).2 := by
    rcases hcaught with hm | hm <;> simp [runLoopAux, hm]
  have hok := runLoopAux_ok_of_no_uncaught rest 1 hrest
  have hpm := processManifest_arr fs e rest flag hfs
  rw [h0, hok] at hpm
  refine ⟨hloop, ?_, ?_⟩ <;> rw [hpm] <;> rfl

/-- C3 witness: a no-`State` entry followed by a valid entry is skipped with
its warning, and the run still succeeds and writes output. -/
theorem c3_per_entry_failures_witness :
    runLoopAux 0 [noStateEntry, falsyFieldsEntry] =
      (entryWarning 0 "The entry does not contain a State object"
        :: (runLoopAux 1 [falsyFieldsEntry]).1, (runLoopAux 1 [falsyFieldsEntry]).2)
    ∧ exitCode (processManifest
        (.obj [("Archives", .arr [noStateEntry, falsyFieldsEntry])]) false).outcome = 0
    ∧ (processManifest
        (.obj [("Archives", .arr [noStateEntry, falsyFieldsEntry])]) false).outputWritten.isSome = true :=
  c3_per_entry_failures 0 noStateEntry [falsyFieldsEntry]
    "The entry does not contain a State object" false
    [("Archives", .arr [noStateEntry, falsyFieldsEntry])]
    (Or.inl rfl)
    (by intro x hx; simp at hx; subst hx; rfl)
    rfl

/-- C3 counterexample: a boolean-`$type` entry at index 0 is an unsupported
`$type`, but instead of a non-fatal warning it aborts the run: the later
valid entry is never validated, no output is written and the exit status is
nonzero. -/
theorem c3_per_entry_failures_cex :
    (runLoopAux 0 [boolTypeEntry, goodEntry]).2 =
        .error (.typeError "argument of type \x27bool\x27 is not iterable")
    ∧ exitCode (processManifest
        (.obj [("Archives", .arr [boolTypeEntry, goodEntry])]) false).outcome = 1
    ∧ (processManifest
        (.obj [("Archives", .arr [boolTypeEntry, goodEntry])]) false).outputWritten = none :=
  ⟨rfl, rfl, rfl⟩

/-- C4 (amended): when the validation loop completes without an uncaught
error, the output file holds exactly one block per entry that passed
validation — at most one per Archives entry — concatenated in the original
entry order with no sorting and no deduplication.  (An entry aborting the
loop with an uncaught `TypeError` prevents the output file from being created
at all.) -/
theorem c4_output_blocks (entries : List JVal) (flag : Bool) (ms : List ModInfo)
    (fs : List (String × JVal))
    (hne : entries ≠ [])
    (hfs : lookupField fs "Archives" = some (.arr entries))
    (hok : (runLoopAux 0 entries).2 = .ok ms) :
    ms = acceptedRecords entries
    ∧ ms.length ≤ entries.length
    ∧ (processManifest (.obj fs) flag).outputWritten
        = some (String.join (ms.map (formatBlock flag))) := by
  obtain ⟨e0, es, rfl⟩ := List.exists_cons_of_ne_nil hne
  have h1 := runLoopAux_ok_records (e0 :: es) 0 ms hok
  refine ⟨h1, ?_, ?_⟩
  · rw [h1]
    simpa [acceptedRecords] using List.length_filterMap_le
      (fun e => resOpt (mkModInfo e)) (e0 :: es)
  · have hpm := processManifest_arr fs e0 es flag hfs
    rw [hok] at hpm
    rw [hpm]
    rfl

/-- C4 witness: on a manifest with one valid and one invalid entry, the
output holds exactly the one block of the valid entry. -/
theorem c4_output_blocks_witness :
    [goodRecord] = acceptedRecords [goodEntry, noStateEntry]
    ∧ ([goodRecord] : List ModInfo).length ≤ ([goodEntry, noStateEntry] : List JVal).length
    ∧ (processManifest (.obj [("Archives", .arr [goodEntry, noStateEntry])]) false).outputWritten
        = some (String.join ([goodRecord].map (formatBlock false))) :=
  c4_output_blocks [goodEntry, noStateEntry] false [goodRecord]
    [("Archives", .arr [goodEntry, noStateEntry])]
    (List.cons_ne_nil _ _) rfl rfl

/-- C4 counterexample: `goodEntry` passes validation at index 0, but the
boolean-`$type` entry behind it aborts the run, so no output file is created
and the passing entry gets no block — the claim's per-entry accounting fails
for this manifest. -/
theorem c4_output_blocks_cex :
    isOkRes (mkModInfo goodEntry) = true
    ∧ (processManifest
        (.obj [("Archives", .arr [goodEntry, boolTypeEntry])]) false).outputWritten = none
    ∧ exitCode (processManifest
        (.obj [("Archives", .arr [goodEntry, boolTypeEntry])]) false).outcome = 1 :=
  ⟨rfl, rfl, rfl⟩

/-- C5: a fully successful run still writes the debug dump file `"temp"`
(line 148 of `extract.py`) in the working directory, in addition to the
designated output file — the code persists a second file. -/
theorem c5_temp_file_written :
    (runExtractor goodEnv).outcome = .success
    ∧ (runExtractor goodEnv).tempWritten = true
    ∧ (runExtractor goodEnv).outputWritten = some (outputContent false [goodRecord]) :=
  ⟨rfl, rfl, rfl⟩

/-- C6: manifest lookup filters the ZIP entry list by exact, case-sensitive
string equality with `"modlist"`; zero matches and two-or-more matches are
both fatal, before any manifest content is touched (no temp dump, no
validation, no output). -/
theorem c6_manifest_lookup (env : Env)
    (h1 : env.inputIsFile = true) (h2 : env.outputIsFile = false)
    (h3 : env.fileCmdExists = true) (h4 : env.fileRcInput = 0)
    (h5 : strContains env.fileOutInput "Zip archive data" = true) :
    (env.zipNames.filter (fun n => n == "modlist") = [] →
      runExtractor env = noResult (.fatalError "The input file does not contain a modlist file"))
    ∧ (∀ a b l, env.zipNames.filter (fun n => n == "modlist") = a :: b :: l →
      runExtractor env = noResult (.fatalError "Got more than one modlist file")) := by
  constructor
  · intro hz
    simp [runExtractor, h1, h2, h3, h4, h5, hz]
  · intro a b l hz
    have hlen : 1 < (a :: b :: l : List String).length := by
      simp [List.length_cons]
    simp [runExtractor, h1, h2, h3, h4, h5, hz, hlen]

/-- C6 witness: a ZIP holding only the case variants `Modlist` and `MODLIST`
has zero exact matches and fails fatally before parsing anything. -/
theorem c6_manifest_lookup_witness :
    runExtractor caseEnv = noResult (.fatalError "The input file does not contain a modlist file") :=
  (c6_manifest_lookup caseEnv rfl rfl rfl rfl rfl).1 rfl

/-- C7 (amended): the loader fails fatally on a falsy (empty or null) parse
result, on an object manifest without a resolvable `Archives` key (absent or
null), and on a present-but-empty `Archives` array; a manifest whose
`Archives` is a non-empty array proceeds to validation.  (The array is not
the only shape that proceeds: any truthy iterable `Archives` value — also a
non-empty object or string — reaches the validation loop.) -/
theorem c7_loader_checks :
    (∀ (data : JVal) (flag : Bool), data.truthy = false →
      processManifest data flag =
        ⟨.fatalError "Failed to load data from modlist", false, false, [], none⟩)
    ∧ (∀ (fs : List (String × JVal)) (flag : Bool), fs ≠ [] →
        lookupField fs "Archives" = none →
        (processManifest (.obj fs) flag).outcome =
          .fatalError "Failed to get archives data from modlist")
    ∧ (∀ (fs : List (String × JVal)) (flag : Bool),
        lookupField fs "Archives" = some (.arr []) →
        (processManifest (.obj fs) flag).outcome =
          .fatalError "No archives defined in modlist")
    ∧ (∀ (fs : List (String × JVal)) (flag : Bool) (e : JVal) (es : List JVal),
        lookupField fs "Archives" = some (.arr (e :: es)) →
        (processManifest (.obj fs) flag).validated = true) := by
  refine ⟨?_, ?_, ?_, ?_⟩
  · intro data flag h
    simp [processManifest, h]
  · intro fs flag hne hz
    have htr : (JVal.obj fs).truthy = true := by
      cases fs with
      | nil => exact absurd rfl hne
      | cons a l => simp [JVal.truthy]
    simp [processManifest, htr, dictGet, hz, JVal.isNull]
  · intro fs flag hz
    have hne := lookupField_some_ne_nil hz
    have hie : fs.isEmpty = false := by
      cases fs with
      | nil => exact absurd rfl hne
      | cons a l => rfl
    simp [processManifest, JVal.truthy, hie, dictGet, hz, JVal.isNull]
  · intro fs flag e es hz
    rw [processManifest_arr fs e es flag hz]
    cases hr : (runLoopAux 0 (e :: es)).2 <;> rfl

/-- C7 witness: the four loader outcomes at concrete manifests — empty
object, no `Archives` key, empty `Archives` array, one-entry `Archives`. -/
theorem c7_loader_checks_witness :
    processManifest (.obj []) false =
      ⟨.fatalError "Failed to load data from modlist", false, false, [], none⟩
    ∧ (processManifest (.obj [("X", .num 1)]) false).outcome =
        .fatalError "Failed to get archives data from modlist"
    ∧ (processManifest (.obj [("Archives", .arr [])]) false).outcome =
        .fatalError "No archives defined in modlist"
    ∧ (processManifest (.obj [("Archives", .arr [noStateEntry])]) false).validated = true :=
  ⟨c7_loader_checks.1 (.obj []) false rfl,
   c7_loader_checks.2.1 [("X", .num 1)] false (List.cons_ne_nil _ _) rfl,
   c7_loader_checks.2.2.1 [("Archives", .arr [])] false rfl,
   c7_loader_checks.2.2.2 [("Archives", .arr [noStateEntry])] false noStateEntry [] rfl⟩

/-- C7 counterexample: a manifest whose `Archives` value is a non-empty JSON
object — not a sequence — still proceeds to validation (iterating the keys)
and the run even succeeds, refuting that only a non-empty Archives sequence
reaches validation. -/
theorem c7_loader_checks_cex :
    jIsArr (.obj [("x", JVal.num 1)]) = false
    ∧ lookupField [("Archives", .obj [("x", JVal.num 1)])] "Archives"
        = some (.obj [("x", JVal.num 1)])
    ∧ (processManifest objArchivesManifest false).validated = true
    ∧ (processManifest objArchivesManifest false).outcome = .success :=
  ⟨rfl, rfl, rfl, rfl⟩

/-- Writing to a directory output path turns any would-be output into an
uncaught `OSError`; combined with the no-output exit fact this keeps the run
fatal with nothing written. -/
lemma applyDirWrite_true (r : RunResult)
    (hr : r.outputWritten = none → exitCode r.outcome = 1) :
    exitCode (applyDirWrite true r).outcome = 1
    ∧ (applyDirWrite true r).outputWritten = none := by
  unfold applyDirWrite
  cases ho : r.outputWritten with
  | some s => simp [ho, exitCode]
  | none =>
    refine ⟨?_, ?_⟩
    · have h1 := hr ho
      simp [ho, h1]
    · simp [ho]

/-- C8: whenever the output path already exists at program start — as a
regular file (caught by the explicit check) or as a directory (the final
`open` raises) — the run exits nonzero and nothing is ever written to the
output path. -/
theorem c8_existing_output_fatal (env : Env)
    (h : env.outputIsFile = true ∨ env.outputIsDir = true) :
    exitCode (runExtractor env).outcome = 1
    ∧ (runExtractor env).outputWritten = none := by
  rcases h with h | h
  · cases hin : env.inputIsFile
    · simp [runExtractor, hin, noResult, exitCode]
    · simp [runExtractor, hin, h, noResult, exitCode]
  · unfold runExtractor
    split
    · exact ⟨rfl, rfl⟩
    · split
      · exact ⟨rfl, rfl⟩
      · split
        · exact ⟨rfl, rfl⟩
        · split
          · exact ⟨rfl, rfl⟩
          · split
            · exact ⟨rfl, rfl⟩
            · dsimp only
              split
              · exact ⟨rfl, rfl⟩
              · split
                · exact ⟨rfl, rfl⟩
                · split
                  · exact ⟨rfl, rfl⟩
                  · split
                    · exact ⟨rfl, rfl⟩
                    · split
                      · exact ⟨rfl, rfl⟩
                      · split
                        · exact ⟨rfl, rfl⟩
                        · rw [h]
                          exact applyDirWrite_true _ (processManifest_none_exit _ _)

/-- C8 witness: the run with an already-existing output file fails with exit
status 1 and writes nothing. -/
theorem c8_existing_output_fatal_witness :
    exitCode (runExtractor outExistsEnv).outcome = 1
    ∧ (runExtractor outExistsEnv).outputWritten = none :=
  c8_existing_output_fatal outExistsEnv (Or.inl rfl)

/-- C9: for an entry whose `State` object carries a Nexus `$type` tag, the
required-field step rejects exactly absent keys and null values, so present
but falsy field values (empty strings, zeros) are accepted; the accepted
record is the loop's output and receives its block. -/
theorem c9_falsy_fields_pass (dfs sfs : List (String × JVal)) (t : String)
    (i : Nat) (flag : Bool)
    (hS : lookupField dfs "State" = some (.obj sfs))
    (hT : lookupField sfs "$type" = some (.str t))
    (hc : strContains t "NexusDownloader" = true) :
    isOkRes (mkModInfo (.obj dfs)) = requiredPresent sfs
    ∧ (∀ m, mkModInfo (.obj dfs) = .ok m →
        (runLoopAux i [.obj dfs]).2 = .ok [m]
        ∧ outputContent flag [m] = formatBlock flag m) := by
  constructor
  · have h1 := (mk_classified (.obj dfs)).1
    rw [h1]
    have htr : (JVal.obj sfs).truthy = true := truthy_obj_of_lookup hT
    have htt : (JVal.str t).truthy = true := by
      cases t with
      | mk l =>
        cases l with
        | nil => exact absurd hc (by decide)
        | cons c cs => simp [JVal.truthy]
    simp [claimAccepts, hS, htr, hT, htt, pyIn, hc]
  · intro m hm
    constructor
    · simp [runLoopAux, hm, Except.map]
    · simp [outputContent, String.join, String.empty_append]

/-- C9 witness: the entry with the Nexus tag and all five fields present but
falsy is accepted, and its record is the loop's single output. -/
theorem c9_falsy_fields_pass_witness :
    isOkRes (mkModInfo falsyFieldsEntry) = requiredPresent falsyState
    ∧ requiredPresent falsyState = true
    ∧ (runLoopAux 0 [falsyFieldsEntry]).2 =
        .ok [⟨.str "", .str "", .num 0, .num 0, .str ""⟩] :=
  ⟨(c9_falsy_fields_pass [("State", .obj falsyState)] falsyState
      "NexusDownloader, Wabbajack.Lib" 0 false rfl rfl rfl).1,
   rfl,
   ((c9_falsy_fields_pass [("State", .obj falsyState)] falsyState
      "NexusDownloader, Wabbajack.Lib" 0 false rfl rfl rfl).2
      ⟨.str "", .str "", .num 0, .num 0, .str ""⟩ rfl).1⟩

/-- C10 (amended): when a manifest's non-empty Archives array contains only
entries rejected with caught errors, the run completes with exit status 0 and
creates the output file with zero blocks (empty content).  (An entry whose
rejection raises an uncaught `TypeError` instead aborts the run before the
output file is created.) -/
theorem c10_all_rejected_empty_output (entries : List JVal) (fs : List (String × JVal))
    (flag : Bool) (hne : entries ≠ [])
    (hfs : lookupField fs "Archives" = some (.arr entries))
    (hall : ∀ e ∈ entries, isCaughtFailure (mkModInfo e) = true) :
    exitCode (processManifest (.obj fs) flag).outcome = 0
    ∧ (processManifest (.obj fs) flag).outputWritten = some "" := by
  obtain ⟨e0, es, rfl⟩ := List.exists_cons_of_ne_nil hne
  have hnc : ∀ e ∈ (e0 :: es), isUncaught (mkModInfo e) = false := by
    intro e he
    exact caught_not_uncaught (hall e he)
  have hok := runLoopAux_ok_of_no_uncaught (e0 :: es) 0 hnc
  rw [acceptedRecords_nil_of_all_caught (e0 :: es) hall] at hok
  have hpm := processManifest_arr fs e0 es flag hfs
  rw [hok] at hpm
  rw [hpm]
  exact ⟨rfl, rfl⟩

/-- C10 witness: a one-entry manifest whose entry lacks `State` gives a
successful run and an empty output file. -/
theorem c10_all_rejected_empty_output_witness :
    exitCode (processManifest (.obj [("Archives", .arr [noStateEntry])]) false).outcome = 0
    ∧ (processManifest (.obj [("Archives", .arr [noStateEntry])]) false).outputWritten = some "" :=
  c10_all_rejected_empty_output [noStateEntry] [("Archives", .arr [noStateEntry])] false
    (List.cons_ne_nil _ _) rfl
    (by intro e he; simp at he; subst he; rfl)

/-- C10 counterexample: a manifest whose single entry fails validation (with
an uncaught `TypeError` from its integer `$type`) aborts with a nonzero exit
and never creates the output file, refuting the claim as stated. -/
theorem c10_all_rejected_empty_output_cex :
    isOkRes (mkModInfo numTypeEntry7) = false
    ∧ exitCode (processManifest (.obj [("Archives", .arr [numTypeEntry7])]) false).outcome = 1
    ∧ (processManifest (.obj [("Archives", .arr [numTypeEntry7])]) false).outputWritten = none :=
  ⟨rfl, rfl, rfl⟩
